import Mathlib

/-!
Verification development for the SmartCare Insight repository.

This file shallowly embeds, in Lean 4, the parts of the repository that the
checked specification talks about:

* the LLM service's trend-window builder and `/analyze` dispatch
  (`src/llm-service/main.py`, `analyze_patient_data`),
* the LLM service's deterministic fallback analyzer and OpenAI provider
  error handling (`src/llm-service/providers.py`),
* the wearable simulator's enhanced signal generator and its
  circadian/meal/sleep modulator
  (`src/wearable-simulator/enhanced_signal_generator.py`).

Numeric values that the Python code holds in floats are modelled as
rationals (`ℚ`) so that everything is exactly computable; the circadian
modulator, which uses `cos`/`exp`, is modelled over `ℝ`.  Randomness
(`self.rng` draws) and wall-clock reads (`datetime.utcnow()`) are
externalized as explicit inputs, so every embedded operation is a pure
function of its inputs.
-/

namespace SmartCare

/-! ## Rational-arithmetic utilities

Python's `round` builtin and the `:.1f` format specifier round half to
even; `pyRound` models that on `ℚ`.  `fmt1` models `f"{x:.1f}"` for the
(non-negative or negative) rationals the service formats.
-/

/-- Round half to even, as Python's `round` does (on exact values). -/
def pyRound (q : ℚ) : ℤ :=
  if q - ⌊q⌋ = 1/2 then (if Even ⌊q⌋ then ⌊q⌋ else ⌊q⌋ + 1) else round q

/-- Python `round(q, 1)`. -/
def pyRound1 (q : ℚ) : ℚ := (pyRound (10 * q) : ℚ) / 10

/-- Python `round(q, 2)`. -/
def pyRound2 (q : ℚ) : ℚ := (pyRound (100 * q) : ℚ) / 100

/-- Python `f"{q:.1f}"`: one-decimal fixed-point rendering. -/
def fmt1 (q : ℚ) : String :=
  let sign := if q < 0 then "-" else ""
  let scaled := (pyRound (10 * |q|)).toNat
  sign ++ toString (scaled / 10) ++ "." ++ toString (scaled % 10)

/-- `max lo (min hi v)`: the clamp idiom used throughout the generator. -/
def clampQ (lo hi v : ℚ) : ℚ := max lo (min hi v)

/-- ASCII uppercase of one character. -/
def charUpper (c : Char) : Char :=
  if 'a' ≤ c ∧ c ≤ 'z' then Char.ofNat (c.toNat - 32) else c

/-- Python `str.upper()` on the ASCII measurement-type names. -/
def pyUpper (s : String) : String := ⟨s.data.map charUpper⟩

/-- Sum of a list of rationals. -/
def listSum (l : List ℚ) : ℚ := l.foldr (· + ·) 0

/-- Python `sum(values) / len(values)`. -/
def listAvg (l : List ℚ) : ℚ := listSum l / l.length

/-- Python `min(values)` (0 on the empty list, never used there). -/
def listMin : List ℚ → ℚ
  | [] => 0
  | x :: xs => xs.foldl min x

/-- Python `max(values)` (0 on the empty list, never used there). -/
def listMax : List ℚ → ℚ
  | [] => 0
  | x :: xs => xs.foldl max x

theorem pyRound_sub_le (q : ℚ) : q - 1/2 ≤ (pyRound q : ℚ) := by
  unfold pyRound
  split_ifs with h h2
  · have hq : (⌊q⌋ : ℚ) = q - 1/2 := by linarith
    rw [hq]
  · push_cast
    have hq : (⌊q⌋ : ℚ) = q - 1/2 := by linarith
    rw [hq]; linarith
  · have := abs_sub_round q
    have h1 : |q - round q| ≤ 1/2 := this
    have := abs_le.mp h1
    linarith [this.1, this.2]

theorem pyRound_le_add (q : ℚ) : (pyRound q : ℚ) ≤ q + 1/2 := by
  unfold pyRound
  split_ifs with h h2
  · have hq : (⌊q⌋ : ℚ) = q - 1/2 := by linarith
    rw [hq]; linarith
  · push_cast
    have hq : (⌊q⌋ : ℚ) = q - 1/2 := by linarith
    rw [hq]; linarith
  · have h1 : |q - round q| ≤ 1/2 := abs_sub_round q
    have := abs_le.mp h1
    linarith [this.1, this.2]

/-- Rounding a value lying between two integers stays between them. -/
theorem pyRound_mem_Icc {a b : ℤ} {x : ℚ} (h1 : (a : ℚ) ≤ x) (h2 : x ≤ (b : ℚ)) :
    (a : ℚ) ≤ (pyRound x : ℚ) ∧ (pyRound x : ℚ) ≤ (b : ℚ) := by
  constructor
  · have hlt : (a : ℚ) - 1 < (pyRound x : ℚ) := by
      have := pyRound_sub_le x; linarith
    have : (a : ℤ) - 1 < pyRound x := by exact_mod_cast hlt
    have : a ≤ pyRound x := by omega
    exact_mod_cast this
  · have hlt : (pyRound x : ℚ) < (b : ℚ) + 1 := by
      have := pyRound_le_add x; linarith
    have : pyRound x < (b : ℤ) + 1 := by exact_mod_cast hlt
    have : pyRound x ≤ b := by omega
    exact_mod_cast this

theorem clampQ_mem {lo hi : ℚ} (v : ℚ) (h : lo ≤ hi) :
    lo ≤ clampQ lo hi v ∧ clampQ lo hi v ≤ hi := by
  unfold clampQ
  exact ⟨le_max_left _ _, max_le h (min_le_left _ _)⟩

/-! ## LLM-service data model (`src/llm-service/models.py`)

Timestamps are modelled as rationals (hours on an absolute axis); all
datetime arithmetic in the service is addition/subtraction of
`timedelta(hours=...)`, which this captures exactly.
-/

/-- `models.AnalysisType`. -/
inductive AnalysisType where
  | time_window
  | event_based
  | comparative
  | trend_analysis
deriving DecidableEq, Repr

/-- `models.VitalSign`: one reading. -/
structure VitalSign where
  timestamp : ℚ
  value : ℚ
  measurement_type : String
  is_anomaly : Bool := false
deriving DecidableEq, Repr

/-- Per-signal statistics stored in a window dict under the keys
`"{mt}_values"`, `"{mt}_avg"`, `"{mt}_min"`, `"{mt}_max"`; the assoc-list
key of `WindowInfo.stats` is the measurement type `mt`. -/
structure SignalStats where
  values : List ℚ
  avg : ℚ
  vmin : ℚ
  vmax : ℚ
deriving DecidableEq, Repr

/-- One window dictionary as built by `analyze_patient_data`
(`main.py`, lines 341-368) or `_generate_trend_windows`. -/
structure WindowInfo where
  window_index : ℕ
  window_label : String
  start_time : ℚ
  end_time : ℚ
  vitals : List VitalSign
  stats : List (String × SignalStats)
deriving DecidableEq, Repr

/-- `models.PatientData`.  The trend-analysis fields (`windows`,
`window_count`, ...) default to `None` in the Python model and are always
assigned by the endpoint before a trend analysis; they are modelled here
with their assigned values (`windows = []` standing for `None`/empty). -/
structure PatientData where
  patient_id : String
  vitals : List VitalSign
  start_time : ℚ
  end_time : ℚ
  windows : List WindowInfo := []
  window_count : ℕ := 0
  window_duration_hours : ℚ := 0
  window_interval_hours : ℚ := 0
deriving DecidableEq, Repr

/-- `models.Insight`. -/
structure Insight where
  text : String
  confidence : ℚ := 1
  related_measurements : List String := []
deriving DecidableEq, Repr, Inhabited

/-- `models.Recommendation`. -/
structure Recommendation where
  text : String
  priority : ℕ := 1
  rationale : String := ""
deriving DecidableEq, Repr

/-- `models.AnalysisResponse` (the fields the service computes;
`time_elapsed`/`metadata` are attached by the endpoint afterwards). -/
structure AnalysisResponse where
  patient_id : String
  analysis_type : AnalysisType
  timestamp : ℚ
  summary : String
  insights : List Insight
  recommendations : List Recommendation
  data_points_analyzed : ℕ
  time_period : String
  windows : Option (List WindowInfo) := none
deriving DecidableEq, Repr

/-! ## Grouping helpers

Python's `vitals_by_type` pattern builds an insertion-ordered dict of
lists; `groupByType` reproduces it with an association list.
-/

/-- Append `v` to the list stored at key `k`, creating the key at the end
of the association list if absent — exactly what
`if k not in d: d[k] = []` followed by `d[k].append(v)` does. -/
def upsertAppend {α : Type} (m : List (String × List α)) (k : String) (v : α) :
    List (String × List α) :=
  match m with
  | [] => [(k, [v])]
  | (k0, l0) :: rest =>
    if k0 = k then (k0, l0 ++ [v]) :: rest
    else (k0, l0) :: upsertAppend rest k v

/-- `vitals_by_type`: group readings by measurement type, insertion order. -/
def groupByType (vitals : List VitalSign) : List (String × List VitalSign) :=
  vitals.foldl (fun acc v => upsertAppend acc v.measurement_type v) []

/-! ## Window builder (`main.py`, `analyze_patient_data`, trend branch)

`total_span = n·d + (n−1)·g`; `calculated_start = end_time − total_span`;
window `i` spans `[calculated_start + i·(d+g), min(start + d, end_time)]`.
-/

/-- `total_time_span = window_duration * n + window_interval * (n - 1)`
(Python integer/timedelta arithmetic: for `n = 0` the factor is `-1`). -/
def total_time_span (n : ℕ) (d g : ℚ) : ℚ := d * n + g * ((n : ℚ) - 1)

/-- `calculated_start_time = request.end_time - total_time_span`. -/
def calculated_start_time (endTime : ℚ) (n : ℕ) (d g : ℚ) : ℚ :=
  endTime - total_time_span n d g

/-- `window_start = calculated_start_time + (window_duration + window_interval) * i`. -/
def window_start (endTime : ℚ) (n : ℕ) (d g : ℚ) (i : ℕ) : ℚ :=
  calculated_start_time endTime n d g + (d + g) * i

/-- `window_end = window_start + window_duration`, clamped to `end_time`
(`if window_end > request.end_time: window_end = request.end_time`). -/
def window_end (endTime : ℚ) (n : ℕ) (d g : ℚ) (i : ℕ) : ℚ :=
  let we := window_start endTime n d g i + d
  if we > endTime then endTime else we

/-- The ordered list of `(start, end)` window spans the endpoint generates
("from oldest to newest", `for i in range(request.window_count)`). -/
def windowSpans (endTime : ℚ) (n : ℕ) (d g : ℚ) : List (ℚ × ℚ) :=
  (List.range n).map (fun i => (window_start endTime n d g i, window_end endTime n d g i))

/-- One window dict as built at `main.py` lines 334-366: `vitals` is bound
to the empty list, and the readings go only into the per-measurement-type
statistics keys. -/
def buildWindowInfo (i : ℕ) (ws we : ℚ) (fetched : List VitalSign) : WindowInfo :=
  { window_index := i
    window_label := "Window " ++ toString (i + 1)
    start_time := ws
    end_time := we
    vitals := []
    stats := (groupByType fetched).filterMap (fun p =>
      let values := p.2.map (·.value)
      if values.isEmpty then none
      else some (p.1, ⟨values, listAvg values, listMin values, listMax values⟩)) }

/-! ## `/analyze` endpoint dispatch (`main.py`, `analyze_patient_data`)

The InfluxDB query is an external collaborator; it is modelled as a
`fetch` function from a time range to the readings in that range.
-/

/-- `TrendAnalysisRequest` (the fields the trend branch reads). -/
structure TrendAnalysisRequest where
  patient_id : String
  end_time : ℚ
  window_count : ℕ
  window_duration_hours : ℚ
  window_interval_hours : ℚ
deriving DecidableEq, Repr

/-- The `HTTPException(status_code=404, ...)` raised by the endpoint. -/
structure NotFoundError where
  detail : String
deriving DecidableEq, Repr

/-- The `windows_data` list built by the trend branch: every window is
appended unconditionally — empty windows are kept as shell structures. -/
def trendWindowsData (req : TrendAnalysisRequest) (fetch : ℚ → ℚ → List VitalSign) :
    List WindowInfo :=
  (List.range req.window_count).map (fun i =>
    let ws := window_start req.end_time req.window_count
      req.window_duration_hours req.window_interval_hours i
    let we := window_end req.end_time req.window_count
      req.window_duration_hours req.window_interval_hours i
    buildWindowInfo i ws we (fetch ws we))

/-- Trend branch of `analyze_patient_data` up to the LLM call: build the
windows, 404 if `windows_data` is empty, otherwise fetch the full range
and attach the window data. -/
def analyzeTrendData (req : TrendAnalysisRequest) (fetch : ℚ → ℚ → List VitalSign) :
    Except NotFoundError PatientData :=
  let windows_data := trendWindowsData req fetch
  if windows_data.isEmpty then
    .error ⟨"No data found for patient " ++ req.patient_id ++
      " in any of the specified time windows"⟩
  else
    let calcStart := calculated_start_time req.end_time req.window_count
      req.window_duration_hours req.window_interval_hours
    .ok { patient_id := req.patient_id
          vitals := fetch calcStart req.end_time
          start_time := calcStart
          end_time := req.end_time
          windows := windows_data
          window_count := req.window_count
          window_duration_hours := req.window_duration_hours
          window_interval_hours := req.window_interval_hours }

/-- Non-trend branch of `analyze_patient_data`: fetch the requested range
and 404 when it holds no readings at all. -/
def analyzeOtherData (patient_id : String) (start_time end_time : ℚ)
    (fetch : ℚ → ℚ → List VitalSign) : Except NotFoundError PatientData :=
  let vitals := fetch start_time end_time
  if vitals.isEmpty then
    .error ⟨"No data found for patient " ++ patient_id ++ " in the specified time range"⟩
  else
    .ok { patient_id := patient_id, vitals := vitals
          start_time := start_time, end_time := end_time }

/-! ## Deterministic fallback analyzer
(`providers.py`, `OpenAIProvider._generate_mock_response`)
-/

/-- `percent_change = ((last_avg - first_avg) / first_avg) * 100
if first_avg != 0 else 0`. -/
def percent_change (first_avg last_avg : ℚ) : ℚ :=
  if first_avg ≠ 0 then (last_avg - first_avg) / first_avg * 100 else 0

/-- Pad `l` with empty lists until its length exceeds `idx`
(`while len(measurement_trends[mt]) <= window_index: append([])`). -/
def padTo (l : List (List ℚ)) (idx : ℕ) : List (List ℚ) :=
  l ++ List.replicate (idx + 1 - l.length) []

/-- `measurement_trends[mt][window_index].append(value)`. -/
def appendAt (l : List (List ℚ)) (idx : ℕ) (x : ℚ) : List (List ℚ) :=
  let l := padTo l idx
  l.set idx (l.getD idx [] ++ [x])

/-- `measurement_trends`: per measurement type, the per-window-index value
lists collected from `window['vitals']` across all windows
(`providers.py` lines 506-519). -/
def measurementTrends (windows : List WindowInfo) : List (String × List (List ℚ)) :=
  windows.foldl (fun acc w =>
    w.vitals.foldl (fun acc v =>
      let mt := v.measurement_type
      let cur := ((acc.lookup mt).getD [])
      let upd := appendAt cur w.window_index v.value
      if (acc.lookup mt).isSome
      then acc.map (fun p => if p.1 = mt then (mt, upd) else p)
      else acc ++ [(mt, upd)]) acc) []

/-- `window_averages`: averages of the non-empty per-window lists, window
order preserved (windows lacking the signal are skipped). -/
def windowAverages (windows_data : List (List ℚ)) : List ℚ :=
  windows_data.filterMap (fun l => if l.isEmpty then none else some (listAvg l))

/-- The insight and recommendation the fallback generates for one
measurement type from its ordered window averages
(`providers.py` lines 529-568); `([], [])` when fewer than 2 windows
have data. -/
def classifyTrend (mt : String) (window_averages : List ℚ) :
    List Insight × List Recommendation :=
  if window_averages.length < 2 then ([], [])
  else
    let first_avg := window_averages.headD 0
    let last_avg := window_averages.getLastD 0
    let pc := percent_change first_avg last_avg
    if |pc| > 10 then
      let direction := if pc > 0 then "increasing" else "decreasing"
      let ins : List Insight :=
        [{ text := pyUpper mt ++ " shows a " ++ direction ++ " trend of " ++
             fmt1 |pc| ++ "% across windows"
           confidence := 85/100
           related_measurements := [mt] }]
      let recs : List Recommendation :=
        if mt = "hr" ∧ pc > 10 then
          [{ text := "Monitor heart rate more frequently", priority := 3
             rationale := "Increasing heart rate trend of " ++ fmt1 pc ++ "%" }]
        else if mt = "oxygen" ∧ pc < -5 then
          [{ text := "Evaluate respiratory function", priority := 4
             rationale := "Decreasing oxygen saturation trend of " ++ fmt1 |pc| ++ "%" }]
        else if mt = "activity" ∧ pc < -15 then
          [{ text := "Assess for mobility issues or fatigue", priority := 3
             rationale := "Decreasing activity level trend of " ++ fmt1 |pc| ++ "%" }]
        else []
      (ins, recs)
    else
      ([{ text := pyUpper mt ++ " remains relatively stable across windows (change: " ++
            fmt1 pc ++ "%)"
          confidence := 9/10
          related_measurements := [mt] }], [])

/-- The per-measurement-type trend insights and recommendations of the
fallback, accumulated in dict order. -/
def trendInsightsRecs (windows : List WindowInfo) :
    List Insight × List Recommendation :=
  (measurementTrends windows).foldl (fun acc p =>
    let (ins, recs) := classifyTrend p.1 (windowAverages p.2)
    (acc.1 ++ ins, acc.2 ++ recs)) ([], [])

/-- Insert keeping earlier-inserted readings with `timestamp ≤` first:
building block of a stable sort by timestamp. -/
def insertByTime (x : VitalSign) : List VitalSign → List VitalSign
  | [] => [x]
  | y :: ys => if y.timestamp ≤ x.timestamp then y :: insertByTime x ys else x :: y :: ys

/-- Stable sort by timestamp, as `vitals.sort(key=lambda v: v.timestamp)`
(Python's sort is stable; a stable insertion sort computes the same
permutation). -/
def sortByTime (l : List VitalSign) : List VitalSign :=
  l.foldl (fun acc x => insertByTime x acc) []

/-- `OpenAIProvider._generate_trend_windows` (`providers.py` lines
641-716), with `window_count`/`window_duration_hours`/
`window_interval_hours` read from the patient data (the service assigns
them before every trend analysis): forward windows from `start_time`,
windows past `end_time` skipped, only windows with data kept — and here
the `vitals` key holds the window's readings. -/
def generate_trend_windows (pd : PatientData) : List WindowInfo :=
  let vitals_by_type := (groupByType pd.vitals).map (fun p => (p.1, sortByTime p.2))
  (List.range pd.window_count).filterMap (fun (i : ℕ) =>
    let ws := pd.start_time +
      (pd.window_duration_hours + pd.window_interval_hours) * (i : ℚ)
    let we := ws + pd.window_duration_hours
    if we > pd.end_time then none
    else
      let perType := vitals_by_type.map (fun p =>
        (p.1, p.2.filter (fun v => ws ≤ v.timestamp ∧ v.timestamp ≤ we)))
      let stats := perType.filterMap (fun p =>
        let values := p.2.map (·.value)
        if values.isEmpty then none
        else some (p.1, SignalStats.mk values (listAvg values) (listMin values)
          (listMax values)))
      let window_vitals := (perType.map (·.2)).flatten
      if window_vitals.isEmpty then none
      else some { window_index := i
                  window_label := "Window " ++ toString (i + 1)
                  start_time := ws
                  end_time := we
                  vitals := window_vitals
                  stats := stats })

/-- The non-trend "simple" insights and recommendations of
`_generate_mock_response` (`providers.py` lines 414-497): heart-rate
average branches, oxygen minimum branch, and the default pair when no
specific pattern was detected. -/
def simpleInsightsRecs (pd : PatientData) : List Insight × List Recommendation :=
  let vitals_by_type := groupByType pd.vitals
  let hrPart : List Insight × List Recommendation :=
    match vitals_by_type.lookup "hr" with
    | none => ([], [])
    | some hrs =>
      let hr_values := hrs.map (·.value)
      if hr_values.isEmpty then ([], [])
      else
        let avg_hr := listAvg hr_values
        if avg_hr > 100 then
          ([{ text := "Elevated average heart rate (" ++ fmt1 avg_hr ++ " bpm)"
              confidence := 8/10, related_measurements := ["hr"] }],
           [{ text := "Monitor heart rate closely", priority := 3
              rationale := "Elevated average heart rate" }])
        else if avg_hr < 60 then
          ([{ text := "Low average heart rate (" ++ fmt1 avg_hr ++ " bpm)"
              confidence := 8/10, related_measurements := ["hr"] }],
           [{ text := "Evaluate for bradycardia", priority := 3
              rationale := "Low average heart rate" }])
        else
          ([{ text := "Normal average heart rate (" ++ fmt1 avg_hr ++ " bpm)"
              confidence := 9/10, related_measurements := ["hr"] }], [])
  let o2Part : List Insight × List Recommendation :=
    match vitals_by_type.lookup "oxygen" with
    | none => ([], [])
    | some o2s =>
      let o2_values := o2s.map (·.value)
      if o2_values.isEmpty then ([], [])
      else
        let min_o2 := listMin o2_values
        if min_o2 < 95 then
          ([{ text := "Low oxygen saturation detected (minimum " ++ fmt1 min_o2 ++ "%)"
              confidence := 9/10, related_measurements := ["oxygen"] }],
           [{ text := "Evaluate respiratory status", priority := 4
              rationale := "Low oxygen saturation" }])
        else ([], [])
  let insights := hrPart.1 ++ o2Part.1
  let recommendations := hrPart.2 ++ o2Part.2
  if insights.isEmpty then
    let related := vitals_by_type.map (·.1)
    ([{ text := "All vital signs appear to be within normal ranges"
        confidence := 8/10, related_measurements := related },
      { text := "Patient shows stable health metrics during the monitoring period"
        confidence := 7/10, related_measurements := related }],
     recommendations ++
      [{ text := "Continue regular monitoring schedule", priority := 1
         rationale := "Maintaining vigilance despite normal readings" },
       { text := "Review patient's medication adherence at next check-up", priority := 2
         rationale := "Ensure continued stability of vital signs" }])
  else (insights, recommendations)

/-- `_generate_mock_response` (`providers.py` lines 412-638): the
deterministic fallback analysis.  `now` is the `datetime.utcnow()` read
that stamps the response. -/
def generate_mock_response (now : ℚ) (analysis_type : AnalysisType)
    (pd : PatientData) : AnalysisResponse :=
  let trendMode := analysis_type = AnalysisType.trend_analysis ∧ pd.windows ≠ []
  let (insights, recommendations) :=
    if trendMode then
      let (ins, recs) := trendInsightsRecs pd.windows
      let nTypes := (measurementTrends pd.windows).length
      if nTypes > 1 then
        let generalText := "Analysis of " ++ toString pd.windows.length ++
          " time windows shows multiple vital sign patterns"
        let generalIns : Insight :=
          { text := generalText, confidence := 8/10
            related_measurements := (measurementTrends pd.windows).map (·.1) }
        let generalRec : Recommendation :=
          { text := "Continue monitoring with the current window configuration"
            priority := 2
            rationale := "Multiple time windows provide good trend visibility" }
        (ins ++ [generalIns], recs ++ [generalRec])
      else (ins, recs)
    else simpleInsightsRecs pd
  let summary :=
    if trendMode then
      if insights.isEmpty then
        "Trend analysis across " ++ toString pd.windows.length ++
          " windows shows no significant patterns."
      else
        "Trend analysis across " ++ toString pd.windows.length ++
          " windows spanning " ++
          fmt1 (pd.window_duration_hours * pd.window_count +
            pd.window_interval_hours * ((pd.window_count : ℚ) - 1)) ++
          " hours shows " ++ toString insights.length ++ " notable patterns."
    else
      if insights.length > 1 then
        "Multiple observations in patient vital signs. See insights for details."
      else if ¬insights.isEmpty then (insights.headD default).text
      else "No significant patterns detected in patient vital signs."
  { patient_id := pd.patient_id
    analysis_type := analysis_type
    timestamp := now
    summary := summary
    insights := insights
    recommendations := recommendations
    data_points_analyzed := pd.vitals.length
    time_period := fmt1 (pd.end_time - pd.start_time) ++ " hours"
    windows :=
      if analysis_type = AnalysisType.trend_analysis then
        some (if pd.windows ≠ [] then pd.windows else generate_trend_windows pd)
      else none }

/-! ## Provider `generate_analysis` (`providers.py` lines 100-267)

The single `await client.chat.completions.create(...)` call is the only
interaction with the external LLM; it is modelled as one `LLMOutcome`
value: either an exception (timeout, connection failure, API error —
`except Exception` catches them all) or a returned message whose content
either parses as JSON (`json.loads` succeeds, giving summary / insights /
recommendations) or does not (giving its raw lines).  `json.loads` and
the HTTP client are external collaborators, so the parse outcome is part
of the input.
-/

/-- Outcome of the message content handling: parsed JSON payload, or the
raw lines when `json.JSONDecodeError` was raised. -/
inductive LLMContent where
  | validJson (summary : String) (insights : List Insight)
      (recommendations : List Recommendation)
  | invalidJson (lines : List String)
deriving DecidableEq, Repr

/-- Outcome of the one LLM API call. -/
inductive LLMOutcome where
  | raised (error : String)
  | responded (content : LLMContent)
deriving DecidableEq, Repr

/-- The response built from a successfully returned message
(`providers.py` lines 157-256): JSON branch attaches the window data when
present; the non-JSON branch does line-based extraction of
`Insight:` / `Recommendation:` prefixed lines. -/
def successResponse (now : ℚ) (analysis_type : AnalysisType) (pd : PatientData)
    (content : LLMContent) : AnalysisResponse :=
  match content with
  | .validJson summary insights recommendations =>
    { patient_id := pd.patient_id
      analysis_type := analysis_type
      timestamp := now
      summary := summary
      insights := insights
      recommendations := recommendations
      data_points_analyzed := pd.vitals.length
      time_period := fmt1 (pd.end_time - pd.start_time) ++ " hours"
      windows := if pd.windows ≠ [] then some pd.windows else none }
  | .invalidJson lines =>
    { patient_id := pd.patient_id
      analysis_type := analysis_type
      timestamp := now
      summary := lines.headD "No summary provided"
      insights := lines.drop 1 |>.filterMap (fun line =>
        if line.startsWith "Insight:" then
          some { text := (line.drop 8).trim }
        else none)
      recommendations := lines.drop 1 |>.filterMap (fun line =>
        if line.startsWith "Recommendation:" then
          some { text := (line.drop 15).trim }
        else none)
      data_points_analyzed := pd.vitals.length
      time_period := fmt1 (pd.end_time - pd.start_time) ++ " hours"
      windows := none }

/-- `OpenAIProvider.generate_analysis`: result plus the number of LLM API
attempts made.  No API key → fallback without calling; an exception from
the call (or from the response handling) → fallback; otherwise the
response is built from the returned content.  There is no retry loop. -/
def generate_analysis (hasApiKey : Bool) (now : ℚ) (llm : LLMOutcome)
    (analysis_type : AnalysisType) (pd : PatientData) : AnalysisResponse × ℕ :=
  if ¬hasApiKey then (generate_mock_response now analysis_type pd, 0)
  else
    match llm with
    | .raised _ => (generate_mock_response now analysis_type pd, 1)
    | .responded content => (successResponse now analysis_type pd content, 1)

/-! ## Trend-prompt per-window statistics (`providers.py` lines 375-394)

`format_prompt`, for `TREND_ANALYSIS`, groups each window's `vitals`
entry by measurement type and emits `Min/Max/Avg` per type.
-/

/-- The `(measurement_type, (min, max, avg))` statistics lines the trend
prompt contains for one window — computed from `window['vitals']`. -/
def promptWindowTypeStats (w : WindowInfo) : List (String × (ℚ × ℚ × ℚ)) :=
  (groupByType w.vitals).filterMap (fun p =>
    let values := p.2.map (·.value)
    if values.isEmpty then none
    else some (p.1, (listMin values, listMax values, listAvg values)))

/-! ## Enhanced signal generator
(`src/wearable-simulator/enhanced_signal_generator.py`)

The `np.random.RandomState` draws are externalized as explicit rational
inputs; the per-signal computation of `generate` is then a pure function
of baseline, trend, time-effect factor and noise draw.
-/

/-- `const.DEFAULT_MONITORED_SIGNALS` / the key order of
`const.NORMAL_RANGES`. -/
def SIGNALS : List String := ["hr", "bp_sys", "bp_dia", "oxygen", "glucose", "activity"]

/-- `const.NORMAL_RANGES`. -/
def NORMAL_RANGES : List (String × (ℚ × ℚ)) :=
  [("hr", (60, 100)), ("bp_sys", (100, 140)), ("bp_dia", (60, 90)),
   ("oxygen", (95, 100)), ("glucose", (70, 120)), ("activity", (3/10, 7/10))]

/-- `const.CONDITION_ADJUSTMENTS`. -/
def CONDITION_ADJUSTMENTS : List (String × List (String × ℚ)) :=
  [("tachycardia", [("hr", 13/10)]),
   ("bradycardia", [("hr", 7/10)]),
   ("hypertension", [("bp_sys", 12/10), ("bp_dia", 12/10)]),
   ("hypotension", [("bp_sys", 85/100), ("bp_dia", 85/100)]),
   ("hypoxia", [("oxygen", 9/10)]),
   ("hyperglycemia", [("glucose", 15/10)]),
   ("hypoglycemia", [("glucose", 7/10)]),
   ("sedentary", [("activity", 5/10)]),
   ("athlete", [("activity", 13/10)])]

/-- Normal range of a signal (`(0, 0)` off the six known signals, never
used there). -/
def normalRange (signal : String) : ℚ × ℚ := (NORMAL_RANGES.lookup signal).getD (0, 0)

/-- The generator state: the attributes of `EnhancedSignalGenerator`
other than the externalized `rng`. -/
structure GenState where
  patient_id : String
  condition : Option String
  baselines : List (String × ℚ)
  trends : List (String × ℚ)
  start_time : ℚ
  last_meal_time : Option ℚ := none
  last_sleep_time : Option ℚ := none
deriving DecidableEq, Repr

/-- `_apply_condition_adjustments`: `for signal, factor in adjustments:
if signal in baselines: baselines[signal] *= factor`. -/
def applyConditionAdjustments (adjustments : List (String × ℚ))
    (baselines : List (String × ℚ)) : List (String × ℚ) :=
  adjustments.foldl (fun bs p =>
    bs.map (fun q => if q.1 = p.1 then (q.1, q.2 * p.2) else q)) baselines

/-- `EnhancedSignalGenerator.__init__`: baseline at the midpoint of the
normal range (oxygen at `98 + uniform(-1, 1)` — `oxJitter` is that
draw), trends at 0, condition multipliers applied once iff the condition
is in the adjustments table. -/
def initGenerator (patient_id : String) (condition : Option String) (oxJitter : ℚ)
    (start_time : ℚ) : GenState :=
  let baselines := NORMAL_RANGES.map (fun p =>
    if p.1 = "oxygen" then (p.1, 98 + oxJitter)
    else (p.1, p.2.1 + (p.2.2 - p.2.1) * (1/2)))
  let baselines :=
    match condition with
    | none => baselines
    | some c =>
      match CONDITION_ADJUSTMENTS.lookup c with
      | none => baselines
      | some adjustments => applyConditionAdjustments adjustments baselines
  { patient_id := patient_id
    condition := condition
    baselines := baselines
    trends := NORMAL_RANGES.map (fun p => (p.1, 0))
    start_time := start_time }

/-- The multiplier the condition table prescribes for one signal: 1 when
the condition is absent, not in the table, or does not adjust the
signal. -/
def condFactor (condition : Option String) (signal : String) : ℚ :=
  match condition with
  | none => 1
  | some c =>
    match CONDITION_ADJUSTMENTS.lookup c with
    | none => 1
    | some adjustments => (adjustments.lookup signal).getD 1

/-- Product of all factors an adjustment list applies to one signal
(what the `*=` loop of `_apply_condition_adjustments` multiplies in).  -/
def factorProd (adjustments : List (String × ℚ)) (signal : String) : ℚ :=
  (adjustments.filterMap (fun p => if p.1 = signal then some p.2 else none)).prod

/-- Trend update of one tick: `t += normal(0, 0.05); t *= 0.95`
(`trendDraw` is the gaussian draw). -/
def trendUpdate (t trendDraw : ℚ) : ℚ := (t + trendDraw) * (95/100)

/-- The oxygen branch of `generate` (lines 162-189): halved trend,
doubled circadian effect, noise clamped to `[-1, min(100 - value, 1)]`,
rounded to one decimal, final clamp to `[90, 100]`. -/
def generateOxygen (baseline trend timeEffect noiseDraw : ℚ) : ℚ :=
  let value := baseline + trend * (1/2)
  let value := value + timeEffect * 2
  let max_noise := min (100 - value) 1
  let noise := max (-1) (min max_noise noiseDraw)
  let value := value + noise
  let value := pyRound1 value
  clampQ 90 100 value

/-- The oxygen value before noise is added. -/
def oxygenPreNoise (baseline trend timeEffect : ℚ) : ℚ :=
  baseline + trend * (1/2) + timeEffect * 2

/-- The clamped noise actually added to the oxygen value. -/
def oxygenClampedNoise (value noiseDraw : ℚ) : ℚ :=
  max (-1) (min (min (100 - value) 1) noiseDraw)

/-- The non-oxygen branch of `generate` (lines 190-219): additive trend,
baseline-proportional time effect, multiplicative noise, clamp to
`[min - 0.3·range, max + 0.3·range]`, integer rounding for
hr/bp/glucose, two-decimal rounding plus `[0, 1]` clamp for activity. -/
def generateStandard (signal : String) (baseline trend timeEffect noiseDraw : ℚ) : ℚ :=
  let value := baseline + trend
  let value := value + baseline * timeEffect
  let value := value * (1 + noiseDraw)
  let mn := (normalRange signal).1
  let mx := (normalRange signal).2
  let range_width := mx - mn
  let value := clampQ (mn - 3/10 * range_width) (mx + 3/10 * range_width) value
  if signal = "hr" ∨ signal = "bp_sys" ∨ signal = "bp_dia" ∨ signal = "glucose" then
    (pyRound value : ℚ)
  else if signal = "activity" then
    clampQ 0 1 (pyRound2 value)
  else value

/-- One signal's generated value (post-update trend as input). -/
def generateSignalValue (signal : String) (baseline trend timeEffect noiseDraw : ℚ) : ℚ :=
  if signal = "oxygen" then generateOxygen baseline trend timeEffect noiseDraw
  else generateStandard signal baseline trend timeEffect noiseDraw

/-- One `generate()` tick: per-signal trend update (using the per-signal
gaussian draws) and value computation; the returned state differs from
the input state only in `trends`. -/
def generateStep (st : GenState) (timeEffects : String → ℚ)
    (trendDraws noiseDraws : String → ℚ) : GenState × List (String × ℚ) :=
  let newTrends := st.trends.map (fun p => (p.1, trendUpdate p.2 (trendDraws p.1)))
  let values := st.baselines.map (fun p =>
    (p.1, generateSignalValue p.1 p.2 ((newTrends.lookup p.1).getD 0)
      (timeEffects p.1) (noiseDraws p.1)))
  ({ st with trends := newTrends }, values)

/-! ## Circadian / meal / sleep modulator
(`enhanced_signal_generator.py`, `_get_circadian_factor`)

Modelled over `ℝ` since it uses `cos` and `exp`.  `hour` is the
hour-of-day with minute fraction.
-/

/-- Python's float `%` for a positive modulus: `x - y·⌊x/y⌋`. -/
noncomputable def fmod (x y : ℝ) : ℝ := x - y * ⌊x / y⌋

/-- `circadian_base = 0.5 * (1 + cos(2π(hour - phase_shift)/24))` with
`phase_shift = 4.0`. -/
noncomputable def circadian_base (hour : ℝ) : ℝ :=
  (1/2) * (1 + Real.cos (2 * Real.pi * (hour - 4) / 24))

/-- `morning_surge = 0.3 * exp(-((hour - 8)²)/8)`. -/
noncomputable def morning_surge (hour : ℝ) : ℝ :=
  (3/10) * Real.exp (-((hour - 8) ^ 2) / 8)

/-- One meal's glucose contribution: active only for
`0.5 ≤ (hour − meal_hour) % 24 ≤ 3.0`, Gaussian bump centered 1.5 h
after the meal. -/
noncomputable def mealContribution (meal_hour hour : ℝ) : ℝ :=
  let hours_since_meal := fmod (hour - meal_hour) 24
  if 1/2 ≤ hours_since_meal ∧ hours_since_meal ≤ 3 then
    (4/10) * Real.exp (-((hours_since_meal - 3/2) ^ 2) / 1)
  else 0

/-- `meal_effect`: summed over all configured meal times. -/
noncomputable def mealSum (meal_times : List ℝ) (hour : ℝ) : ℝ :=
  (meal_times.map (fun m => mealContribution m hour)).sum

/-- The modulator configuration flags and parameters
(`config/settings.py`). -/
structure ModSettings where
  use_circadian_rhythms : Bool
  simulate_meals : Bool
  simulate_sleep : Bool
  meal_times : List ℝ
  sleep_start_hour : ℕ
  sleep_duration_hours : ℝ

/-- The per-signal factor dictionary `_get_circadian_factor` returns. -/
@[ext]
structure Factors where
  hr : ℝ
  bp_sys : ℝ
  bp_dia : ℝ
  glucose : ℝ
  oxygen : ℝ
  activity : ℝ

/-- The all-zero factor dictionary returned when circadian rhythms are
disabled. -/
def zeroFactors : Factors := ⟨0, 0, 0, 0, 0, 0⟩

/-- The sleep-window test: `sleep_end = (sleep_start + duration) % 24`;
when the window wraps midnight the test wraps too. -/
noncomputable def isSleepTime (st : ModSettings) (hour : ℝ) : Prop :=
  let sleep_start : ℝ := st.sleep_start_hour
  let sleep_end := fmod (sleep_start + st.sleep_duration_hours) 24
  if sleep_start < sleep_end then sleep_start ≤ hour ∧ hour < sleep_end
  else hour ≥ sleep_start ∨ hour < sleep_end

open Classical in
/-- `_get_circadian_factor` (lines 74-136).  When
`use_circadian_rhythms` is false the function returns zero for every
signal before computing anything else — the meal and sleep branches are
never reached. -/
noncomputable def getCircadianFactor (st : ModSettings) (hour : ℝ) : Factors :=
  if st.use_circadian_rhythms = false then zeroFactors
  else
    let c := circadian_base hour
    let surge := morning_surge hour
    let meal_effect := if st.simulate_meals then mealSum st.meal_times hour else 0
    let base : Factors :=
      { hr := (2/10) * (c - 1/2)
        bp_sys := (1/10) * (c - 1/2) + surge
        bp_dia := (8/100) * (c - 1/2) + surge * (8/10)
        glucose := (1/10) * (c - 1/2) + meal_effect
        oxygen := -(1/100) * (c - 1/2)
        activity := (4/10) * (c - 1/2) }
    if st.simulate_sleep ∧ isSleepTime st hour then
      { base with
          activity := base.activity - 8/10
          hr := base.hr - 15/100
          bp_sys := base.bp_sys - 1/10
          bp_dia := base.bp_dia - 1/10 }
    else base

/-! ## Theorems -/

theorem windowSpans_length (T : ℚ) (n : ℕ) (d g : ℚ) :
    (windowSpans T n d g).length = n := by
  simp [windowSpans]

theorem windowSpans_getD (T : ℚ) (n : ℕ) (d g : ℚ) (i : ℕ) (h : i < n) :
    (windowSpans T n d g).getD i (0, 0) =
      (window_start T n d g i, window_end T n d g i) := by
  unfold windowSpans
  rw [List.getD_eq_getElem?_getD, List.getElem?_map, List.getElem?_range h]
  rfl

theorem window_end_eq_min (T : ℚ) (n : ℕ) (d g : ℚ) (i : ℕ) :
    window_end T n d g i = min (window_start T n d g i + d) T := by
  unfold window_end
  rcases le_or_lt (window_start T n d g i + d) T with h | h
  · rw [if_neg (by linarith), min_eq_left h]
  · rw [if_pos h, min_eq_right h.le]

/-- C2: for every window request with `n ≥ 1` windows of duration `d` at
interval `g` ending at `T`, the builder uses
`total_span = n·d + (n−1)·g` and `calculated_start = T − total_span`;
window `i` spans `[calculated_start + i·(d+g),
min(calculated_start + i·(d+g) + d, T)]`, windows are generated oldest to
newest; and for `n = 5, d = 6, g = 0` the five windows exactly tile
`[T − 30, T]`: window `i` is `[T − 30 + 6i, T − 30 + 6(i+1)]`, so each
window's end is the next one's start, the first starts at `T − 30` and
the last ends at `T`. -/
theorem C2_window_builder (n : ℕ) (d g T : ℚ) (hn : 1 ≤ n) :
    total_time_span n d g = d * n + g * ((n : ℚ) - 1) ∧
    calculated_start_time T n d g = T - total_time_span n d g ∧
    (windowSpans T n d g).length = n ∧
    (∀ i, i < n → (windowSpans T n d g).getD i (0, 0) =
      (calculated_start_time T n d g + (d + g) * i,
       min (calculated_start_time T n d g + (d + g) * i + d) T)) ∧
    (0 ≤ d → 0 ≤ g → ∀ i j, i ≤ j → j < n →
      ((windowSpans T n d g).getD i (0, 0)).1 ≤
        ((windowSpans T n d g).getD j (0, 0)).1) ∧
    (∀ i, i < 5 → (windowSpans T 5 6 0).getD i (0, 0) =
      (T - 30 + 6 * i, T - 30 + 6 * (i + 1))) := by
  refine ⟨rfl, rfl, windowSpans_length T n d g, ?_, ?_, ?_⟩
  · intro i hi
    rw [windowSpans_getD T n d g i hi, window_end_eq_min]
    rfl
  · intro hd hg i j hij hj
    rw [windowSpans_getD T n d g i (lt_of_le_of_lt hij hj),
      windowSpans_getD T n d g j hj]
    simp only [window_start]
    have : (i : ℚ) ≤ (j : ℚ) := by exact_mod_cast hij
    nlinarith
  · intro i hi
    rw [windowSpans_getD T 5 6 0 i hi, window_end_eq_min]
    have hstart : window_start T 5 6 0 i = T - 30 + 6 * i := by
      simp only [window_start, calculated_start_time, total_time_span]
      push_cast
      ring
    have hile : (i : ℚ) ≤ 4 := by
      have : i ≤ 4 := by omega
      exact_mod_cast this
    rw [hstart, min_eq_left (by linarith)]
    refine Prod.ext rfl ?_
    push_cast
    ring

/-- Witness for C2: instantiated at `n = 5, d = 6, g = 0, T = 0`, window
2 spans `[-18, -12]`. -/
theorem C2_window_builder_witness :
    (windowSpans (0 : ℚ) 5 6 0).getD 2 (0, 0) = (-18, -12) := by
  have h := (C2_window_builder 5 6 0 (0 : ℚ) (by norm_num)).2.2.2.2.2 2 (by norm_num)
  rw [h]
  norm_num

theorem circadian_base_bounds (h : ℝ) :
    0 ≤ circadian_base h ∧ circadian_base h ≤ 1 := by
  unfold circadian_base
  have h1 := Real.cos_le_one (2 * Real.pi * (h - 4) / 24)
  have h2 := Real.neg_one_le_cos (2 * Real.pi * (h - 4) / 24)
  constructor <;> nlinarith

/-- C7: the code's base circadian signal
`0.5·(1 + cos(2π(h−4)/24))` attains the value 1 — its global MAXIMUM —
at `h = 4` (04:00), and the value 0 — its global MINIMUM — at `h = 16`
(16:00).  This is the opposite of the claimed (and code-commented)
"trough at 04:00, peak at 16:00": the formula's phase shift puts the
peak, not the trough, at 4 AM. -/
theorem C7_circadian_base_extremes :
    circadian_base 4 = 1 ∧ circadian_base 16 = 0 ∧
    (∀ h : ℝ, 0 ≤ circadian_base h ∧ circadian_base h ≤ 1) := by
  refine ⟨?_, ?_, circadian_base_bounds⟩
  · unfold circadian_base
    norm_num
  · unfold circadian_base
    have h12 : 2 * Real.pi * ((16 : ℝ) - 4) / 24 = Real.pi := by ring
    rw [h12, Real.cos_pi]
    norm_num

/-- C5 counterexample: a trend-analysis request (`window_count = 1`,
6-hour window, end time 0) over a store with NO readings at all does not
get the not-found error — the empty window is retained as a shell and
the analysis proceeds, contradicting the claim that an entirely empty
range is reported as not found for trend-analysis requests too. -/
theorem C5_counterexample :
    (analyzeTrendData ⟨"patient-1", 0, 1, 6, 0⟩ (fun _ _ => [])).isOk = true := by
  rfl

/-- C5 amended: a non-trend analysis request whose full range holds no
readings gets the 404 not-found error; a trend-analysis request raises
the not-found error only when its windows list is empty, i.e. only when
`window_count = 0` — with `window_count ≥ 1` every window (empty or not)
is retained as a shell, so the request proceeds without error even when
the full range holds no readings at all. -/
theorem C5_analysis_not_found (pid : String) (s e : ℚ)
    (req : TrendAnalysisRequest) (fetch : ℚ → ℚ → List VitalSign) :
    (fetch s e = [] → analyzeOtherData pid s e fetch =
      .error ⟨"No data found for patient " ++ pid ++ " in the specified time range"⟩) ∧
    (1 ≤ req.window_count → (analyzeTrendData req fetch).isOk = true) ∧
    (req.window_count = 0 → analyzeTrendData req fetch =
      .error ⟨"No data found for patient " ++ req.patient_id ++
        " in any of the specified time windows"⟩) := by
  refine ⟨?_, ?_, ?_⟩
  · intro h
    simp [analyzeOtherData, h]
  · intro h
    have hlen : (trendWindowsData req fetch).length = req.window_count := by
      simp [trendWindowsData]
    have : ¬(trendWindowsData req fetch).isEmpty := by
      rw [List.isEmpty_iff_length_eq_zero, hlen]
      omega
    simp only [analyzeTrendData, this, Bool.false_eq_true, if_false]
    rfl
  · intro h
    have : (trendWindowsData req fetch).isEmpty := by
      simp [trendWindowsData, h]
    simp [analyzeTrendData, this]

/-- Witness for the amended C5: at `window_count = 2` with an empty store
the trend request proceeds; a non-trend request over the empty store gets
the 404. -/
theorem C5_analysis_not_found_witness :
    (analyzeTrendData ⟨"p1", 0, 2, 6, 0⟩ (fun _ _ => [])).isOk = true ∧
    analyzeOtherData "p1" 0 6 (fun _ _ => []) =
      .error ⟨"No data found for patient p1 in the specified time range"⟩ := by
  have h := C5_analysis_not_found "p1" 0 6 ⟨"p1", 0, 2, 6, 0⟩ (fun _ _ => [])
  exact ⟨h.2.1 (by norm_num), h.1 rfl⟩

theorem measurementTrends_of_empty_vitals (ws : List WindowInfo)
    (h : ∀ w ∈ ws, w.vitals = []) : measurementTrends ws = [] := by
  unfold measurementTrends
  induction ws with
  | nil => rfl
  | cons w rest ih =>
    have hw : w.vitals = [] := h w (by simp)
    simp only [List.foldl_cons, hw, List.foldl_nil]
    exact ih (fun x hx => h x (by simp [hx]))

/-- C6: every window dictionary built by the `/analyze` trend branch
binds `vitals` to the empty list (the readings go only into the
per-signal statistics entries), so both consumers that iterate
`window['vitals']` observe zero readings: the fallback's per-window trend
grouping is empty (hence no trend insights or recommendations at all),
and the trend prompt's per-window statistics section is empty. -/
theorem C6_builder_windows_vitals_empty (req : TrendAnalysisRequest)
    (fetch : ℚ → ℚ → List VitalSign) :
    (∀ w ∈ trendWindowsData req fetch, w.vitals = []) ∧
    measurementTrends (trendWindowsData req fetch) = [] ∧
    trendInsightsRecs (trendWindowsData req fetch) = ([], []) ∧
    (∀ w ∈ trendWindowsData req fetch, promptWindowTypeStats w = []) := by
  have hvit : ∀ w ∈ trendWindowsData req fetch, w.vitals = [] := by
    intro w hw
    simp only [trendWindowsData, List.mem_map] at hw
    obtain ⟨i, _, rfl⟩ := hw
    rfl
  have htr := measurementTrends_of_empty_vitals _ hvit
  refine ⟨hvit, htr, ?_, ?_⟩
  · unfold trendInsightsRecs
    rw [htr]
    rfl
  · intro w hw
    simp [promptWindowTypeStats, groupByType, hvit w hw]

/-- Witness for C6: a concrete one-window trend request over a store with
one heart-rate reading — the window dict holds the reading only in its
stats, its `vitals` is empty, and the fallback's trend grouping sees
nothing. -/
theorem C6_builder_windows_vitals_empty_witness :
    (∀ w ∈ trendWindowsData ⟨"p1", 6, 1, 6, 0⟩
      (fun _ _ => [⟨1, 72, "hr", false⟩]), w.vitals = []) ∧
    measurementTrends (trendWindowsData ⟨"p1", 6, 1, 6, 0⟩
      (fun _ _ => [⟨1, 72, "hr", false⟩])) = [] := by
  have h := C6_builder_windows_vitals_empty ⟨"p1", 6, 1, 6, 0⟩
    (fun _ _ => [⟨1, 72, "hr", false⟩])
  exact ⟨h.1, h.2.1⟩

/-- C4: `generate_analysis` makes at most one LLM attempt (no retries),
and for every exception raised by the LLM call it returns the
deterministic fallback (`_generate_mock_response`) instead of
propagating the failure; in every case the caller receives a structurally
valid `AnalysisResponse` for the requested patient and analysis type. -/
theorem C4_llm_error_fallback (hasApiKey : Bool) (now : ℚ) (llm : LLMOutcome)
    (analysis_type : AnalysisType) (pd : PatientData) :
    (generate_analysis hasApiKey now llm analysis_type pd).2 ≤ 1 ∧
    (∀ e, llm = .raised e →
      (generate_analysis hasApiKey now llm analysis_type pd).1 =
        generate_mock_response now analysis_type pd) ∧
    (generate_analysis hasApiKey now llm analysis_type pd).1.patient_id =
      pd.patient_id ∧
    (generate_analysis hasApiKey now llm analysis_type pd).1.analysis_type =
      analysis_type := by
  cases hasApiKey with
  | false =>
    refine ⟨by simp [generate_analysis], fun e he => by simp [generate_analysis],
      ?_, ?_⟩ <;> simp only [generate_analysis] <;> rfl
  | true =>
    cases llm with
    | raised err =>
      refine ⟨by simp [generate_analysis], fun e he => by simp [generate_analysis],
        ?_, ?_⟩ <;> simp only [generate_analysis] <;> rfl
    | responded content =>
      refine ⟨by simp [generate_analysis], fun e he => by simp at he, ?_, ?_⟩ <;>
        cases content <;> simp only [generate_analysis] <;> rfl

/-- Witness for C4: a concrete timeout exception on a one-reading patient
— exactly one attempt was made and the result is the deterministic
fallback. -/
theorem C4_llm_error_fallback_witness :
    (generate_analysis true 0 (.raised "Request timed out") AnalysisType.time_window
      ⟨"p1", [⟨1, 72, "hr", false⟩], 0, 6, [], 0, 0, 0⟩).2 ≤ 1 ∧
    (generate_analysis true 0 (.raised "Request timed out") AnalysisType.time_window
      ⟨"p1", [⟨1, 72, "hr", false⟩], 0, 6, [], 0, 0, 0⟩).1 =
      generate_mock_response 0 AnalysisType.time_window
        ⟨"p1", [⟨1, 72, "hr", false⟩], 0, 6, [], 0, 0, 0⟩ := by
  have h := C4_llm_error_fallback true 0 (.raised "Request timed out")
    AnalysisType.time_window ⟨"p1", [⟨1, 72, "hr", false⟩], 0, 6, [], 0, 0, 0⟩
  exact ⟨h.1, h.2.1 "Request timed out" rfl⟩

/-- C9 counterexample: the fallback stamps `datetime.utcnow()` into the
response's `timestamp` field, so two calls on identical window data made
at different wall-clock instants (here 0 and 1) yield UNEQUAL
`AnalysisResult` values — "every field equal" fails on `timestamp`. -/
theorem C9_counterexample :
    generate_mock_response 0 AnalysisType.time_window
      ⟨"p1", [⟨1, 72, "hr", false⟩], 0, 6, [], 0, 0, 0⟩ ≠
    generate_mock_response 1 AnalysisType.time_window
      ⟨"p1", [⟨1, 72, "hr", false⟩], 0, 6, [], 0, 0, 0⟩ := by
  intro h
  have ht := congrArg AnalysisResponse.timestamp h
  have h0 : (generate_mock_response 0 AnalysisType.time_window
    ⟨"p1", [⟨1, 72, "hr", false⟩], 0, 6, [], 0, 0, 0⟩).timestamp = 0 := rfl
  have h1 : (generate_mock_response 1 AnalysisType.time_window
    ⟨"p1", [⟨1, 72, "hr", false⟩], 0, 6, [], 0, 0, 0⟩).timestamp = 1 := rfl
  rw [h0, h1] at ht
  norm_num at ht

/-- C9 amended: the fallback analyzer is deterministic in every field
except `timestamp`: two calls on identical window data, whatever the two
wall-clock reads, agree on patient id, analysis type, summary, insights,
recommendations, data-point count, time period and windows — the
`timestamp` field alone records the per-call `utcnow()` read. -/
theorem C9_fallback_deterministic (t1 t2 : ℚ) (analysis_type : AnalysisType)
    (pd : PatientData) :
    (generate_mock_response t1 analysis_type pd).patient_id =
      (generate_mock_response t2 analysis_type pd).patient_id ∧
    (generate_mock_response t1 analysis_type pd).analysis_type =
      (generate_mock_response t2 analysis_type pd).analysis_type ∧
    (generate_mock_response t1 analysis_type pd).summary =
      (generate_mock_response t2 analysis_type pd).summary ∧
    (generate_mock_response t1 analysis_type pd).insights =
      (generate_mock_response t2 analysis_type pd).insights ∧
    (generate_mock_response t1 analysis_type pd).recommendations =
      (generate_mock_response t2 analysis_type pd).recommendations ∧
    (generate_mock_response t1 analysis_type pd).data_points_analyzed =
      (generate_mock_response t2 analysis_type pd).data_points_analyzed ∧
    (generate_mock_response t1 analysis_type pd).time_period =
      (generate_mock_response t2 analysis_type pd).time_period ∧
    (generate_mock_response t1 analysis_type pd).windows =
      (generate_mock_response t2 analysis_type pd).windows := by
  exact ⟨rfl, rfl, rfl, rfl, rfl, rfl, rfl, rfl⟩

theorem fmt1_of_nonneg {q : ℚ} (h0 : 0 ≤ q) :
    fmt1 q = toString ((pyRound (10 * q)).toNat / 10) ++ "." ++
      toString ((pyRound (10 * q)).toNat % 10) := by
  simp [fmt1, abs_of_nonneg h0, not_lt.mpr h0]

/-- C1: for every signal type whose ordered per-window average list
(windows lacking the signal skipped) has at least 2 entries, the fallback
computes `percent_change = (last_avg − first_avg)/first_avg × 100` (0
when `first_avg = 0`); `|percent_change| > 10` yields the
"significant trend" insight naming the direction and magnitude with
confidence 0.85, otherwise the "stable" insight with confidence 0.9; and
on three windows with HR averages `[70, 72, 90]` the change is
`200/7 ≈ 28.6% > 10`, classified "increasing", and the priority-3
heart-rate-monitoring recommendation fires. -/
theorem C1_trend_fallback (mt : String) (avgs : List ℚ) (h2 : 2 ≤ avgs.length) :
    (percent_change (avgs.headD 0) (avgs.getLastD 0) =
      if avgs.headD 0 ≠ 0 then
        (avgs.getLastD 0 - avgs.headD 0) / avgs.headD 0 * 100
      else 0) ∧
    (|percent_change (avgs.headD 0) (avgs.getLastD 0)| > 10 →
      classifyTrend mt avgs =
        ([⟨pyUpper mt ++ " shows a " ++
            (if percent_change (avgs.headD 0) (avgs.getLastD 0) > 0 then "increasing"
             else "decreasing") ++ " trend of " ++
            fmt1 |percent_change (avgs.headD 0) (avgs.getLastD 0)| ++
            "% across windows", 85/100, [mt]⟩],
          (classifyTrend mt avgs).2)) ∧
    (¬|percent_change (avgs.headD 0) (avgs.getLastD 0)| > 10 →
      classifyTrend mt avgs =
        ([⟨pyUpper mt ++ " remains relatively stable across windows (change: " ++
            fmt1 (percent_change (avgs.headD 0) (avgs.getLastD 0)) ++ "%)",
           9/10, [mt]⟩], [])) ∧
    (measurementTrends
        [⟨0, "Window 1", 0, 6, [⟨1, 70, "hr", false⟩], []⟩,
         ⟨1, "Window 2", 6, 12, [⟨7, 72, "hr", false⟩], []⟩,
         ⟨2, "Window 3", 12, 18, [⟨13, 90, "hr", false⟩], []⟩] =
      [("hr", [[70], [72], [90]])]) ∧
    windowAverages [[70], [72], [90]] = [70, 72, 90] ∧
    percent_change 70 90 = 200/7 ∧ (200/7 : ℚ) > 10 ∧
    (trendInsightsRecs
        [⟨0, "Window 1", 0, 6, [⟨1, 70, "hr", false⟩], []⟩,
         ⟨1, "Window 2", 6, 12, [⟨7, 72, "hr", false⟩], []⟩,
         ⟨2, "Window 3", 12, 18, [⟨13, 90, "hr", false⟩], []⟩] =
      ([⟨"HR shows a increasing trend of 28.6% across windows", 85/100, ["hr"]⟩],
       [⟨"Monitor heart rate more frequently", 3,
         "Increasing heart rate trend of 28.6%"⟩])) := by
  have hnot2 : ¬avgs.length < 2 := not_lt.mpr h2
  have hpc : percent_change ((70:ℚ)) 90 = 200/7 := by norm_num [percent_change]
  have hf : fmt1 ((200:ℚ)/7) = "28.6" := by
    rw [fmt1_of_nonneg (by norm_num)]
    have h : pyRound (10 * ((200:ℚ)/7)) = 286 := by norm_num [pyRound, round_eq]
    rw [h]
    rfl
  have hwa : windowAverages [[70], [72], [90]] = [70, 72, 90] := by
    simp only [windowAverages, List.filterMap_cons, List.filterMap_nil]
    norm_num [listAvg, listSum]
  have hct : classifyTrend "hr" [70, 72, 90] =
      ([⟨"HR shows a increasing trend of 28.6% across windows", 85/100, ["hr"]⟩],
       [⟨"Monitor heart rate more frequently", 3,
         "Increasing heart rate trend of 28.6%"⟩]) := by
    have hhead : ([70, 72, 90] : List ℚ).headD 0 = 70 := rfl
    have hlast : ([70, 72, 90] : List ℚ).getLastD 0 = 90 := rfl
    simp only [classifyTrend, hhead, hlast, hpc]
    rw [if_neg (by norm_num), if_pos (by rw [abs_of_nonneg (by norm_num)]; norm_num),
      if_pos (by norm_num), abs_of_nonneg (by norm_num : (0:ℚ) ≤ 200/7), hf,
      if_pos (show True ∧ (200:ℚ)/7 > 10 from ⟨trivial, by norm_num⟩)]
    simp [pyUpper, charUpper]
  have hmt : measurementTrends
      [⟨0, "Window 1", 0, 6, [⟨1, 70, "hr", false⟩], []⟩,
       ⟨1, "Window 2", 6, 12, [⟨7, 72, "hr", false⟩], []⟩,
       ⟨2, "Window 3", 12, 18, [⟨13, 90, "hr", false⟩], []⟩] =
      [("hr", [[70], [72], [90]])] := rfl
  refine ⟨rfl, ?_, ?_, hmt, hwa, hpc, by norm_num, ?_⟩
  · intro hbig
    simp only [classifyTrend, if_neg hnot2, if_pos hbig]
  · intro hsmall
    simp only [classifyTrend, if_neg hnot2, if_neg hsmall]
  · unfold trendInsightsRecs
    rw [hmt]
    simp only [List.foldl_cons, List.foldl_nil, hwa, hct]
    rfl

/-- Witness for C1: applied at `mt = "hr"` and averages `[70, 72, 90]` —
the full fallback pipeline on the three HR windows produces the
increasing-trend insight and the priority-3 monitoring recommendation. -/
theorem C1_trend_fallback_witness :
    trendInsightsRecs
        [⟨0, "Window 1", 0, 6, [⟨1, 70, "hr", false⟩], []⟩,
         ⟨1, "Window 2", 6, 12, [⟨7, 72, "hr", false⟩], []⟩,
         ⟨2, "Window 3", 12, 18, [⟨13, 90, "hr", false⟩], []⟩] =
      ([⟨"HR shows a increasing trend of 28.6% across windows", 85/100, ["hr"]⟩],
       [⟨"Monitor heart rate more frequently", 3,
         "Increasing heart rate trend of 28.6%"⟩]) :=
  (C1_trend_fallback "hr" [70, 72, 90] (by norm_num)).2.2.2.2.2.2.2

theorem clamp_pyRound_bounds (lo hi : ℤ) (v : ℚ) (h : (lo : ℚ) ≤ (hi : ℚ)) :
    (lo : ℚ) ≤ (pyRound (clampQ lo hi v) : ℚ) ∧
      (pyRound (clampQ lo hi v) : ℚ) ≤ (hi : ℚ) :=
  pyRound_mem_Icc (clampQ_mem v h).1 (clampQ_mem v h).2

theorem div10_max_min (kq : ℚ) :
    max 90 (min 100 (kq / 10)) = (max 900 (min 1000 kq)) / 10 := by
  rcases le_total kq 1000 with h1 | h1
  · rw [min_eq_right h1, min_eq_right (by linarith : kq / 10 ≤ 100)]
    rcases le_total kq 900 with h2 | h2
    · rw [max_eq_left (by linarith : kq / 10 ≤ 90), max_eq_left h2]
      norm_num
    · rw [max_eq_right (by linarith : (90 : ℚ) ≤ kq / 10), max_eq_right h2]
  · rw [min_eq_left h1, min_eq_left (by linarith : (100 : ℚ) ≤ kq / 10),
      max_eq_right (by norm_num : (90 : ℚ) ≤ 100),
      max_eq_right (by norm_num : (900 : ℚ) ≤ 1000)]
    norm_num

/-- C3: for every baseline, trend, time-effect and noise draw (hence for
every timestamp and generator state), each non-oxygen signal value lies
within `[min − 0.3·range, max + 0.3·range]` of its normal range, the
activity value additionally lies in `[0, 1]`; the oxygen value lies in
`[90, 100]` and is a multiple of 0.1 (rounded to 1 decimal); and the
oxygen noise actually added is clamped to at most
`min(100 − value, 1.0)` (whenever that cap is above the −1 floor, in
particular for every pre-noise value ≤ 101), so the returned value can
never exceed 100. -/
theorem C3_generator_bounds (signal : String)
    (hs : signal ∈ ["hr", "bp_sys", "bp_dia", "glucose", "activity"])
    (b t e nz : ℚ) :
    ((normalRange signal).1 - 3/10 * ((normalRange signal).2 - (normalRange signal).1) ≤
        generateStandard signal b t e nz ∧
      generateStandard signal b t e nz ≤
        (normalRange signal).2 + 3/10 * ((normalRange signal).2 - (normalRange signal).1)) ∧
    (signal = "activity" →
      0 ≤ generateStandard signal b t e nz ∧ generateStandard signal b t e nz ≤ 1) ∧
    (90 ≤ generateOxygen b t e nz ∧ generateOxygen b t e nz ≤ 100) ∧
    (∃ k : ℤ, generateOxygen b t e nz = (k : ℚ) / 10) ∧
    (generateOxygen b t e nz =
      clampQ 90 100 (pyRound1 (oxygenPreNoise b t e +
        oxygenClampedNoise (oxygenPreNoise b t e) nz))) ∧
    (oxygenPreNoise b t e ≤ 101 →
      oxygenClampedNoise (oxygenPreNoise b t e) nz ≤
        min (100 - oxygenPreNoise b t e) 1) := by
  have hox90 : (90 : ℚ) ≤ generateOxygen b t e nz ∧ generateOxygen b t e nz ≤ 100 := by
    unfold generateOxygen
    exact clampQ_mem _ (by norm_num)
  have hoxk : ∃ k : ℤ, generateOxygen b t e nz = (k : ℚ) / 10 := by
    refine ⟨max 900 (min 1000 (pyRound (10 * (b + t * (1/2) + e * 2 +
      max (-1) (min (min (100 - (b + t * (1/2) + e * 2)) 1) nz))))), ?_⟩
    have hv : generateOxygen b t e nz =
        clampQ 90 100 ((pyRound (10 * (b + t * (1/2) + e * 2 +
          max (-1) (min (min (100 - (b + t * (1/2) + e * 2)) 1) nz))) : ℚ) / 10) := rfl
    rw [hv]
    unfold clampQ
    push_cast [Int.cast_max, Int.cast_min]
    exact div10_max_min _
  have hact : 3/10 - 3/10 * (7/10 - 3/10) ≤ generateStandard "activity" b t e nz ∧
      generateStandard "activity" b t e nz ≤ 7/10 + 3/10 * (7/10 - 3/10) ∧
      0 ≤ generateStandard "activity" b t e nz ∧
      generateStandard "activity" b t e nz ≤ 1 := by
    have hv : generateStandard "activity" b t e nz =
        clampQ 0 1 (pyRound2 (clampQ (3/10 - 3/10 * (7/10 - 3/10))
          (7/10 + 3/10 * (7/10 - 3/10)) ((b + t + b * e) * (1 + nz)))) := rfl
    have hcl := @clampQ_mem (3/10 - 3/10 * (7/10 - 3/10))
      (7/10 + 3/10 * (7/10 - 3/10)) ((b + t + b * e) * (1 + nz)) (by norm_num)
    have hr2 := pyRound_mem_Icc (a := 18) (b := 82)
      (x := 100 * clampQ (3/10 - 3/10 * (7/10 - 3/10)) (7/10 + 3/10 * (7/10 - 3/10))
        ((b + t + b * e) * (1 + nz)))
      (by push_cast; linarith [hcl.1]) (by push_cast; linarith [hcl.2])
    push_cast at hr2
    have hy : (18/100 : ℚ) ≤ pyRound2 (clampQ (3/10 - 3/10 * (7/10 - 3/10))
        (7/10 + 3/10 * (7/10 - 3/10)) ((b + t + b * e) * (1 + nz))) ∧
        pyRound2 (clampQ (3/10 - 3/10 * (7/10 - 3/10)) (7/10 + 3/10 * (7/10 - 3/10))
          ((b + t + b * e) * (1 + nz))) ≤ 82/100 := by
      unfold pyRound2
      constructor
      · linarith [hr2.1]
      · linarith [hr2.2]
    have hcv : clampQ 0 1 (pyRound2 (clampQ (3/10 - 3/10 * (7/10 - 3/10))
        (7/10 + 3/10 * (7/10 - 3/10)) ((b + t + b * e) * (1 + nz)))) =
        pyRound2 (clampQ (3/10 - 3/10 * (7/10 - 3/10)) (7/10 + 3/10 * (7/10 - 3/10))
          ((b + t + b * e) * (1 + nz))) := by
      rw [show clampQ 0 1 (pyRound2 (clampQ (3/10 - 3/10 * (7/10 - 3/10))
          (7/10 + 3/10 * (7/10 - 3/10)) ((b + t + b * e) * (1 + nz)))) =
        max 0 (min 1 (pyRound2 (clampQ (3/10 - 3/10 * (7/10 - 3/10))
          (7/10 + 3/10 * (7/10 - 3/10)) ((b + t + b * e) * (1 + nz))))) from rfl,
        min_eq_right (by linarith [hy.2]), max_eq_right (by linarith [hy.1])]
    rw [hv, hcv]
    exact ⟨by linarith [hy.1], by linarith [hy.2], by linarith [hy.1], by linarith [hy.2]⟩
  refine ⟨?_, ?_, hox90, hoxk, rfl, ?_⟩
  · fin_cases hs
    · have hv : generateStandard "hr" b t e nz =
          (pyRound (clampQ (60 - 3/10 * (100 - 60)) (100 + 3/10 * (100 - 60))
            ((b + t + b * e) * (1 + nz))) : ℚ) := rfl
      have e1 : (60 : ℚ) - 3/10 * (100 - 60) = ((48 : ℤ) : ℚ) := by norm_num
      have e2 : (100 : ℚ) + 3/10 * (100 - 60) = ((112 : ℤ) : ℚ) := by norm_num
      show (60 : ℚ) - 3/10 * (100 - 60) ≤ _ ∧ _ ≤ (100 : ℚ) + 3/10 * (100 - 60)
      rw [hv, e1, e2]
      exact clamp_pyRound_bounds 48 112 _ (by norm_num)
    · have hv : generateStandard "bp_sys" b t e nz =
          (pyRound (clampQ (100 - 3/10 * (140 - 100)) (140 + 3/10 * (140 - 100))
            ((b + t + b * e) * (1 + nz))) : ℚ) := rfl
      have e1 : (100 : ℚ) - 3/10 * (140 - 100) = ((88 : ℤ) : ℚ) := by norm_num
      have e2 : (140 : ℚ) + 3/10 * (140 - 100) = ((152 : ℤ) : ℚ) := by norm_num
      show (100 : ℚ) - 3/10 * (140 - 100) ≤ _ ∧ _ ≤ (140 : ℚ) + 3/10 * (140 - 100)
      rw [hv, e1, e2]
      exact clamp_pyRound_bounds 88 152 _ (by norm_num)
    · have hv : generateStandard "bp_dia" b t e nz =
          (pyRound (clampQ (60 - 3/10 * (90 - 60)) (90 + 3/10 * (90 - 60))
            ((b + t + b * e) * (1 + nz))) : ℚ) := rfl
      have e1 : (60 : ℚ) - 3/10 * (90 - 60) = ((51 : ℤ) : ℚ) := by norm_num
      have e2 : (90 : ℚ) + 3/10 * (90 - 60) = ((99 : ℤ) : ℚ) := by norm_num
      show (60 : ℚ) - 3/10 * (90 - 60) ≤ _ ∧ _ ≤ (90 : ℚ) + 3/10 * (90 - 60)
      rw [hv, e1, e2]
      exact clamp_pyRound_bounds 51 99 _ (by norm_num)
    · have hv : generateStandard "glucose" b t e nz =
          (pyRound (clampQ (70 - 3/10 * (120 - 70)) (120 + 3/10 * (120 - 70))
            ((b + t + b * e) * (1 + nz))) : ℚ) := rfl
      have e1 : (70 : ℚ) - 3/10 * (120 - 70) = ((55 : ℤ) : ℚ) := by norm_num
      have e2 : (120 : ℚ) + 3/10 * (120 - 70) = ((135 : ℤ) : ℚ) := by norm_num
      show (70 : ℚ) - 3/10 * (120 - 70) ≤ _ ∧ _ ≤ (120 : ℚ) + 3/10 * (120 - 70)
      rw [hv, e1, e2]
      exact clamp_pyRound_bounds 55 135 _ (by norm_num)
    · show (3/10 : ℚ) - 3/10 * (7/10 - 3/10) ≤ _ ∧ _ ≤ (7/10 : ℚ) + 3/10 * (7/10 - 3/10)
      exact ⟨hact.1, hact.2.1⟩
  · intro hsig
    subst hsig
    exact ⟨hact.2.2.1, hact.2.2.2⟩
  · intro h101
    unfold oxygenClampedNoise
    exact max_le (le_min (by linarith) (by norm_num)) (min_le_left _ _)

/-- Witness for C3: at signal `"hr"`, baseline 80, zero trend/effects and
zero noise draws, the generated heart-rate value lies in `[48, 112]` and
the generated oxygen value lies in `[90, 100]`. -/
theorem C3_generator_bounds_witness :
    (60 : ℚ) - 3/10 * (100 - 60) ≤ generateStandard "hr" 80 0 0 0 ∧
    generateStandard "hr" 80 0 0 0 ≤ (100 : ℚ) + 3/10 * (100 - 60) ∧
    (90 ≤ generateOxygen 80 0 0 0 ∧ generateOxygen 80 0 0 0 ≤ 100) := by
  have h := C3_generator_bounds "hr" (by simp) 80 0 0 0
  exact ⟨h.1.1, h.1.2, h.2.2.1⟩

theorem gcf_off (st : ModSettings) (hour : ℝ)
    (hc : st.use_circadian_rhythms = false) :
    getCircadianFactor st hour = zeroFactors := by
  unfold getCircadianFactor
  rw [if_pos hc]

theorem gcf_glucose (st : ModSettings) (hour : ℝ)
    (hc : st.use_circadian_rhythms = true) :
    (getCircadianFactor st hour).glucose =
      (1/10) * (circadian_base hour - 1/2) +
        (if st.simulate_meals then mealSum st.meal_times hour else 0) := by
  unfold getCircadianFactor
  rw [if_neg (by simp [hc])]
  split_ifs <;> rfl

open Classical in
theorem gcf_hr (st : ModSettings) (hour : ℝ)
    (hc : st.use_circadian_rhythms = true) :
    (getCircadianFactor st hour).hr =
      (2/10) * (circadian_base hour - 1/2) -
        (if st.simulate_sleep ∧ isSleepTime st hour then 15/100 else 0) := by
  unfold getCircadianFactor
  rw [if_neg (by simp [hc])]
  split_ifs <;> ring

open Classical in
theorem gcf_bp_sys (st : ModSettings) (hour : ℝ)
    (hc : st.use_circadian_rhythms = true) :
    (getCircadianFactor st hour).bp_sys =
      (1/10) * (circadian_base hour - 1/2) + morning_surge hour -
        (if st.simulate_sleep ∧ isSleepTime st hour then 1/10 else 0) := by
  unfold getCircadianFactor
  rw [if_neg (by simp [hc])]
  split_ifs <;> ring

open Classical in
theorem gcf_bp_dia (st : ModSettings) (hour : ℝ)
    (hc : st.use_circadian_rhythms = true) :
    (getCircadianFactor st hour).bp_dia =
      (8/100) * (circadian_base hour - 1/2) + morning_surge hour * (8/10) -
        (if st.simulate_sleep ∧ isSleepTime st hour then 1/10 else 0) := by
  unfold getCircadianFactor
  rw [if_neg (by simp [hc])]
  split_ifs <;> ring

theorem gcf_oxygen (st : ModSettings) (hour : ℝ)
    (hc : st.use_circadian_rhythms = true) :
    (getCircadianFactor st hour).oxygen =
      -(1/100) * (circadian_base hour - 1/2) := by
  unfold getCircadianFactor
  rw [if_neg (by simp [hc])]
  split_ifs <;> ring

open Classical in
theorem gcf_activity (st : ModSettings) (hour : ℝ)
    (hc : st.use_circadian_rhythms = true) :
    (getCircadianFactor st hour).activity =
      (4/10) * (circadian_base hour - 1/2) -
        (if st.simulate_sleep ∧ isSleepTime st hour then 8/10 else 0) := by
  unfold getCircadianFactor
  rw [if_neg (by simp [hc])]
  split_ifs <;> ring

theorem mealSum_single_noon : mealSum [12] (27/2) = 2/5 := by
  have hfloor : ⌊((27/2 : ℝ) - 12) / 24⌋ = 0 := by
    rw [Int.floor_eq_zero_iff]
    constructor <;> norm_num
  have hsm : fmod ((27/2 : ℝ) - 12) 24 = 3/2 := by
    unfold fmod
    rw [hfloor]
    norm_num
  unfold mealSum mealContribution
  rw [List.map_cons, List.map_nil, List.sum_cons, List.sum_nil]
  simp only [hsm]
  rw [if_pos (by constructor <;> norm_num)]
  norm_num [Real.exp_zero]

theorem sleep_time_at_2 : isSleepTime ⟨true, true, true, [12], 23, 8⟩ 2 := by
  have hfloor : ⌊(((23:ℕ) : ℝ) + 8) / 24⌋ = 1 := by
    rw [Int.floor_eq_iff]
    push_cast
    constructor <;> norm_num
  have hend : fmod (((23:ℕ) : ℝ) + 8) 24 = 7 := by
    unfold fmod
    rw [hfloor]
    push_cast
    norm_num
  simp only [isSleepTime, hend]
  rw [if_neg (by push_cast; norm_num)]
  right
  norm_num

/-- C8 counterexample: with `use_circadian_rhythms = False` but
`simulate_meals = True` and `simulate_sleep = True` (meal at 12:00,
sleep 23:00-07:00), at hour 13.5 the glucose factor is 0 even though the
meal effect is 2/5 ≠ 0 (with circadian enabled the factor would be
≥ 0.35), and at hour 2 — inside the sleep window — the activity factor
is 0 with no −0.8 sleep reduction (with circadian enabled it would be
≤ −0.6): disabling circadian rhythms disables the meal and sleep effects
too, so the three flags are NOT independent. -/
theorem C8_counterexample :
    (getCircadianFactor ⟨false, true, true, [12], 23, 8⟩ (27/2)).glucose = 0 ∧
    mealSum [12] (27/2) = 2/5 ∧
    (getCircadianFactor ⟨true, true, true, [12], 23, 8⟩ (27/2)).glucose ≥ 35/100 ∧
    (getCircadianFactor ⟨false, true, true, [12], 23, 8⟩ 2).activity = 0 ∧
    (getCircadianFactor ⟨true, true, true, [12], 23, 8⟩ 2).activity ≤ -(6/10) := by
  refine ⟨?_, mealSum_single_noon, ?_, ?_, ?_⟩
  · rw [gcf_off _ _ rfl]
    rfl
  · rw [gcf_glucose _ _ rfl, if_pos rfl, mealSum_single_noon]
    have hb := circadian_base_bounds (27/2)
    linarith [hb.1, hb.2]
  · rw [gcf_off _ _ rfl]
    rfl
  · rw [gcf_activity _ _ rfl, if_pos ⟨rfl, sleep_time_at_2⟩]
    have hb := circadian_base_bounds 2
    linarith [hb.1, hb.2]

/-- C8 amended: when circadian rhythms are ENABLED, the meal and sleep
flags independently control exactly their own contributions — toggling
meal simulation adds/removes precisely the meal-effect term of the
glucose factor and leaves every other signal's factor unchanged, and
toggling sleep simulation applies/removes precisely the sleep
adjustments (−0.8 activity, −0.15 HR, −0.1 both BPs) during the sleep
window and nothing outside it; but when `use_circadian_rhythms` is
false, `_get_circadian_factor` returns zero for every signal before the
meal and sleep branches are reached, so disabling circadian rhythms also
disables the meal and sleep effects — the flags are independent only
under an enabled circadian rhythm. -/
theorem C8_modulator_flags (st : ModSettings) (hour : ℝ) :
    (st.use_circadian_rhythms = false → getCircadianFactor st hour = zeroFactors) ∧
    (st.use_circadian_rhythms = true →
      ((getCircadianFactor {st with simulate_meals := true} hour).glucose =
        (getCircadianFactor {st with simulate_meals := false} hour).glucose +
          mealSum st.meal_times hour) ∧
      (∀ b : Bool,
        (getCircadianFactor {st with simulate_meals := b} hour).hr =
          (getCircadianFactor st hour).hr ∧
        (getCircadianFactor {st with simulate_meals := b} hour).bp_sys =
          (getCircadianFactor st hour).bp_sys ∧
        (getCircadianFactor {st with simulate_meals := b} hour).bp_dia =
          (getCircadianFactor st hour).bp_dia ∧
        (getCircadianFactor {st with simulate_meals := b} hour).oxygen =
          (getCircadianFactor st hour).oxygen ∧
        (getCircadianFactor {st with simulate_meals := b} hour).activity =
          (getCircadianFactor st hour).activity) ∧
      (isSleepTime st hour →
        (getCircadianFactor {st with simulate_sleep := true} hour).activity =
          (getCircadianFactor {st with simulate_sleep := false} hour).activity -
            8/10 ∧
        (getCircadianFactor {st with simulate_sleep := true} hour).hr =
          (getCircadianFactor {st with simulate_sleep := false} hour).hr - 15/100 ∧
        (getCircadianFactor {st with simulate_sleep := true} hour).bp_sys =
          (getCircadianFactor {st with simulate_sleep := false} hour).bp_sys -
            1/10 ∧
        (getCircadianFactor {st with simulate_sleep := true} hour).bp_dia =
          (getCircadianFactor {st with simulate_sleep := false} hour).bp_dia -
            1/10 ∧
        (getCircadianFactor {st with simulate_sleep := true} hour).glucose =
          (getCircadianFactor {st with simulate_sleep := false} hour).glucose ∧
        (getCircadianFactor {st with simulate_sleep := true} hour).oxygen =
          (getCircadianFactor {st with simulate_sleep := false} hour).oxygen) ∧
      (¬isSleepTime st hour →
        getCircadianFactor {st with simulate_sleep := true} hour =
          getCircadianFactor {st with simulate_sleep := false} hour)) := by
  refine ⟨fun hc => gcf_off _ _ hc, fun hc => ⟨?_, ?_, ?_, ?_⟩⟩
  · rw [gcf_glucose {st with simulate_meals := true} hour hc,
      gcf_glucose {st with simulate_meals := false} hour hc]
    rw [if_pos rfl, if_neg (by simp)]
    ring
  · intro b
    refine ⟨?_, ?_, ?_, ?_, ?_⟩
    · rw [gcf_hr {st with simulate_meals := b} hour hc, gcf_hr st hour hc]
      rfl
    · rw [gcf_bp_sys {st with simulate_meals := b} hour hc, gcf_bp_sys st hour hc]
      rfl
    · rw [gcf_bp_dia {st with simulate_meals := b} hour hc, gcf_bp_dia st hour hc]
      rfl
    · rw [gcf_oxygen {st with simulate_meals := b} hour hc, gcf_oxygen st hour hc]
    · rw [gcf_activity {st with simulate_meals := b} hour hc, gcf_activity st hour hc]
      rfl
  · intro hsleep
    refine ⟨?_, ?_, ?_, ?_, ?_, ?_⟩
    · rw [gcf_activity {st with simulate_sleep := true} hour hc,
        gcf_activity {st with simulate_sleep := false} hour hc,
        if_pos ⟨rfl, hsleep⟩, if_neg (fun hcon => by simpa using hcon.1)]
      ring
    · rw [gcf_hr {st with simulate_sleep := true} hour hc,
        gcf_hr {st with simulate_sleep := false} hour hc,
        if_pos ⟨rfl, hsleep⟩, if_neg (fun hcon => by simpa using hcon.1)]
      ring
    · rw [gcf_bp_sys {st with simulate_sleep := true} hour hc,
        gcf_bp_sys {st with simulate_sleep := false} hour hc,
        if_pos ⟨rfl, hsleep⟩, if_neg (fun hcon => by simpa using hcon.1)]
      ring
    · rw [gcf_bp_dia {st with simulate_sleep := true} hour hc,
        gcf_bp_dia {st with simulate_sleep := false} hour hc,
        if_pos ⟨rfl, hsleep⟩, if_neg (fun hcon => by simpa using hcon.1)]
      ring
    · rw [gcf_glucose {st with simulate_sleep := true} hour hc,
        gcf_glucose {st with simulate_sleep := false} hour hc]
    · rw [gcf_oxygen {st with simulate_sleep := true} hour hc,
        gcf_oxygen {st with simulate_sleep := false} hour hc]
  · intro hns
    ext
    · rw [gcf_hr {st with simulate_sleep := true} hour hc,
        gcf_hr {st with simulate_sleep := false} hour hc,
        if_neg (fun hcon => hns hcon.2), if_neg (fun hcon => by simpa using hcon.1)]
    · rw [gcf_bp_sys {st with simulate_sleep := true} hour hc,
        gcf_bp_sys {st with simulate_sleep := false} hour hc,
        if_neg (fun hcon => hns hcon.2), if_neg (fun hcon => by simpa using hcon.1)]
    · rw [gcf_bp_dia {st with simulate_sleep := true} hour hc,
        gcf_bp_dia {st with simulate_sleep := false} hour hc,
        if_neg (fun hcon => hns hcon.2), if_neg (fun hcon => by simpa using hcon.1)]
    · rw [gcf_glucose {st with simulate_sleep := true} hour hc,
        gcf_glucose {st with simulate_sleep := false} hour hc]
    · rw [gcf_oxygen {st with simulate_sleep := true} hour hc,
        gcf_oxygen {st with simulate_sleep := false} hour hc]
    · rw [gcf_activity {st with simulate_sleep := true} hour hc,
        gcf_activity {st with simulate_sleep := false} hour hc,
        if_neg (fun hcon => hns hcon.2), if_neg (fun hcon => by simpa using hcon.1)]

/-- Witness for the amended C8: with circadian rhythms enabled, meal at
12:00 and the sleep window 23:00-07:00, at hour 13.5 enabling meal
simulation adds exactly the 2/5 meal effect to the glucose factor. -/
theorem C8_modulator_flags_witness :
    (getCircadianFactor ⟨true, true, true, [12], 23, 8⟩ (27/2)).glucose =
      (getCircadianFactor ⟨true, false, true, [12], 23, 8⟩ (27/2)).glucose + 2/5 := by
  have h := (C8_modulator_flags ⟨true, true, true, [12], 23, 8⟩ (27/2)).2 rfl
  have h1 := h.1
  rw [mealSum_single_noon] at h1
  exact h1

theorem lookup_cons_self {α : Type} (k : String) (a : α) (l : List (String × α)) :
    ((k, a) :: l).lookup k = some a := by
  simp [List.lookup]

theorem lookup_cons_ne {α : Type} {s k : String} (a : α) (l : List (String × α))
    (h : s ≠ k) : ((k, a) :: l).lookup s = l.lookup s := by
  have hb : (s == k) = false := beq_eq_false_iff_ne.mpr h
  simp [List.lookup, hb]

theorem lookup_map_value {α β : Type} (l : List (String × α)) (f : String → α → β)
    (s : String) :
    (l.map (fun p => (p.1, f p.1 p.2))).lookup s = (l.lookup s).map (f s) := by
  induction l with
  | nil => rfl
  | cons p rest ih =>
    obtain ⟨k, a⟩ := p
    by_cases hk : s = k
    · subst hk
      rw [List.map_cons, lookup_cons_self, lookup_cons_self]
      rfl
    · rw [List.map_cons, lookup_cons_ne _ _ hk, lookup_cons_ne _ _ hk, ih]

theorem lookup_snd_mem {α : Type} (l : List (String × α)) (c : String) (a : α)
    (h : l.lookup c = some a) : a ∈ l.map Prod.snd := by
  induction l with
  | nil => simp [List.lookup] at h
  | cons p rest ih =>
    obtain ⟨k, b⟩ := p
    by_cases hk : c = k
    · subst hk
      rw [lookup_cons_self] at h
      simp only [Option.some.injEq] at h
      simp [h.symm]
    · rw [lookup_cons_ne _ _ hk] at h
      simpa using Or.inr (ih h)

theorem lookup_mul_step (bs : List (String × ℚ)) (k : String) (f : ℚ) (s : String) :
    (bs.map (fun q => if q.1 = k then (q.1, q.2 * f) else q)).lookup s =
      (bs.lookup s).map (fun b => if k = s then b * f else b) := by
  induction bs with
  | nil => rfl
  | cons q rest ih =>
    obtain ⟨k0, b0⟩ := q
    have hmap : (((k0, b0) :: rest).map (fun q => if q.1 = k then (q.1, q.2 * f) else q)) =
        (if k0 = k then (k0, b0 * f) else (k0, b0)) ::
          rest.map (fun q => if q.1 = k then (q.1, q.2 * f) else q) := rfl
    rw [hmap]
    by_cases h0 : k0 = k
    · subst h0
      rw [if_pos rfl]
      by_cases hs : s = k0
      · subst hs
        rw [lookup_cons_self, lookup_cons_self, Option.map_some', if_pos rfl]
      · rw [lookup_cons_ne _ _ hs, lookup_cons_ne _ _ hs, ih]
    · rw [if_neg h0]
      by_cases hs : s = k0
      · subst hs
        rw [lookup_cons_self, lookup_cons_self, Option.map_some',
          if_neg (fun hks => h0 hks.symm)]
      · rw [lookup_cons_ne _ _ hs, lookup_cons_ne _ _ hs, ih]

theorem lookup_applyCond (adjustments : List (String × ℚ))
    (bs : List (String × ℚ)) (s : String) :
    (applyConditionAdjustments adjustments bs).lookup s =
      (bs.lookup s).map (· * factorProd adjustments s) := by
  induction adjustments generalizing bs with
  | nil =>
    simp [applyConditionAdjustments, factorProd]
  | cons p rest ih =>
    obtain ⟨k, f⟩ := p
    have hstep : applyConditionAdjustments ((k, f) :: rest) bs =
        applyConditionAdjustments rest
          (bs.map (fun q => if q.1 = k then (q.1, q.2 * f) else q)) := rfl
    rw [hstep, ih, lookup_mul_step]
    rcases hlk : bs.lookup s with _ | b
    · rfl
    · simp only [Option.map_some']
      congr 1
      by_cases hks : k = s
      · subst hks
        rw [if_pos rfl]
        have hfp : factorProd ((k, f) :: rest) k = f * factorProd rest k := by
          simp [factorProd]
        rw [hfp]
        ring
      · rw [if_neg hks]
        have hfp : factorProd ((k, f) :: rest) s = factorProd rest s := by
          simp [factorProd, if_neg (fun hp : k = s => hks hp)]
        rw [hfp]

theorem factorProd_of_not_mem (adjustments : List (String × ℚ)) (s : String)
    (h : s ∉ adjustments.map Prod.fst) : factorProd adjustments s = 1 := by
  induction adjustments with
  | nil => rfl
  | cons p rest ih =>
    obtain ⟨k, f⟩ := p
    simp only [List.map_cons, List.mem_cons, not_or] at h
    have hfp : factorProd ((k, f) :: rest) s = factorProd rest s := by
      simp [factorProd, if_neg (fun hp : k = s => h.1 hp.symm)]
    rw [hfp]
    exact ih h.2

theorem factorProd_eq_lookup (adjustments : List (String × ℚ))
    (hnd : (adjustments.map Prod.fst).Nodup) (s : String) :
    factorProd adjustments s = (adjustments.lookup s).getD 1 := by
  induction adjustments with
  | nil => rfl
  | cons p rest ih =>
    obtain ⟨k, f⟩ := p
    simp only [List.map_cons, List.nodup_cons] at hnd
    by_cases hks : k = s
    · subst hks
      have hfp : factorProd ((k, f) :: rest) k = f * factorProd rest k := by
        simp [factorProd]
      rw [hfp, factorProd_of_not_mem rest k hnd.1, lookup_cons_self]
      simp
    · have hfp : factorProd ((k, f) :: rest) s = factorProd rest s := by
        simp [factorProd, if_neg (fun hp : k = s => hks hp)]
      rw [hfp, lookup_cons_ne _ _ (fun hsk => hks hsk.symm)]
      exact ih hnd.2

/-- Every adjustment list in the condition table names each signal at
most once. -/
theorem condition_adjustments_nodup :
    ∀ adj ∈ CONDITION_ADJUSTMENTS.map Prod.snd, (adj.map Prod.fst).Nodup := by
  decide

/-- C10: at construction each baseline is the midpoint of the signal's
normal range (oxygen: `98` plus the uniform jitter draw `j ∈ [-1, 1]`),
multiplied exactly once by the condition's factor (1 when the condition
is absent, unknown, or does not adjust that signal), and every trend
starts at 0; and one `generate()` tick leaves `baselines`, `patient_id`,
`condition`, `start_time`, `last_meal_time` and `last_sleep_time`
unchanged, mutating only the per-signal trend scalars by the damped
update `t ← 0.95·(t + draw)`. -/
theorem C10_generator_state (pid : String) (cond : Option String) (j start : ℚ)
    (hj1 : -1 ≤ j) (hj2 : j ≤ 1) (s : String) (hs : s ∈ SIGNALS)
    (st : GenState) (te td nd : String → ℚ) :
    (initGenerator pid cond j start).baselines.lookup s =
      some ((if s = "oxygen" then 98 + j
        else (normalRange s).1 + ((normalRange s).2 - (normalRange s).1) * (1/2)) *
        condFactor cond s) ∧
    (initGenerator pid cond j start).trends.lookup s = some 0 ∧
    (generateStep st te td nd).1.baselines = st.baselines ∧
    (generateStep st te td nd).1.patient_id = st.patient_id ∧
    (generateStep st te td nd).1.condition = st.condition ∧
    (generateStep st te td nd).1.start_time = st.start_time ∧
    (generateStep st te td nd).1.last_meal_time = st.last_meal_time ∧
    (generateStep st te td nd).1.last_sleep_time = st.last_sleep_time ∧
    (generateStep st te td nd).1.trends =
      st.trends.map (fun p => (p.1, trendUpdate p.2 (td p.1))) := by
  have hfun : (fun (p : String × (ℚ × ℚ)) =>
      if p.1 = "oxygen" then (p.1, 98 + j)
      else (p.1, p.2.1 + (p.2.2 - p.2.1) * (1/2))) =
      (fun p => (p.1, if p.1 = "oxygen" then 98 + j
        else p.2.1 + (p.2.2 - p.2.1) * (1/2))) := by
    funext p
    split_ifs <;> rfl
  have hbase : (initGenerator pid cond j start).baselines.lookup s =
      some ((if s = "oxygen" then 98 + j
        else (normalRange s).1 + ((normalRange s).2 - (normalRange s).1) * (1/2)) *
        condFactor cond s) := by
    rcases cond with _ | c
    · have hb : (initGenerator pid none j start).baselines =
          NORMAL_RANGES.map (fun p =>
            if p.1 = "oxygen" then (p.1, 98 + j)
            else (p.1, p.2.1 + (p.2.2 - p.2.1) * (1/2))) := rfl
      rw [hb, hfun, lookup_map_value NORMAL_RANGES
        (fun k v => if k = "oxygen" then 98 + j else v.1 + (v.2 - v.1) * (1/2)) s]
      fin_cases hs <;>
        simp [normalRange, NORMAL_RANGES, condFactor, List.lookup]
    · rcases hlkc : CONDITION_ADJUSTMENTS.lookup c with _ | adj
      · have hb : (initGenerator pid (some c) j start).baselines =
            NORMAL_RANGES.map (fun p =>
              if p.1 = "oxygen" then (p.1, 98 + j)
              else (p.1, p.2.1 + (p.2.2 - p.2.1) * (1/2))) := by
          simp only [initGenerator, hlkc]
        have hcf : condFactor (some c) s = 1 := by
          simp [condFactor, hlkc]
        rw [hb, hfun, lookup_map_value NORMAL_RANGES
          (fun k v => if k = "oxygen" then 98 + j else v.1 + (v.2 - v.1) * (1/2)) s,
          hcf]
        fin_cases hs <;>
          simp [normalRange, NORMAL_RANGES, List.lookup]
      · have hb : (initGenerator pid (some c) j start).baselines =
            applyConditionAdjustments adj (NORMAL_RANGES.map (fun p =>
              if p.1 = "oxygen" then (p.1, 98 + j)
              else (p.1, p.2.1 + (p.2.2 - p.2.1) * (1/2)))) := by
          simp only [initGenerator, hlkc]
        have hnodup : (adj.map Prod.fst).Nodup :=
          condition_adjustments_nodup adj (lookup_snd_mem _ _ _ hlkc)
        have hcf : condFactor (some c) s = (adj.lookup s).getD 1 := by
          simp [condFactor, hlkc]
        rw [hb, lookup_applyCond, hfun, lookup_map_value NORMAL_RANGES
          (fun k v => if k = "oxygen" then 98 + j else v.1 + (v.2 - v.1) * (1/2)) s,
          factorProd_eq_lookup adj hnodup, hcf]
        fin_cases hs <;>
          simp [normalRange, NORMAL_RANGES, List.lookup]
  have htr : (initGenerator pid cond j start).trends.lookup s = some 0 := by
    have ht : (initGenerator pid cond j start).trends =
        NORMAL_RANGES.map (fun p => (p.1, (0 : ℚ))) := by
      rcases cond with _ | c
      · rfl
      · rcases hlkc : CONDITION_ADJUSTMENTS.lookup c with _ | adj <;>
          simp only [initGenerator, hlkc]
    rw [ht, lookup_map_value NORMAL_RANGES (fun _ _ => (0 : ℚ)) s]
    fin_cases hs <;> rfl
  exact ⟨hbase, htr, rfl, rfl, rfl, rfl, rfl, rfl, rfl⟩

/-- Witness for C10: for a tachycardic patient with oxygen jitter 1/2,
the heart-rate baseline is the midpoint 80 scaled once by 1.3 and the
oxygen baseline is 98.5 (no oxygen adjustment for tachycardia). -/
theorem C10_generator_state_witness :
    (initGenerator "p1" (some "tachycardia") (1/2) 0).baselines.lookup "hr" =
      some (((normalRange "hr").1 +
        ((normalRange "hr").2 - (normalRange "hr").1) * (1/2)) *
        condFactor (some "tachycardia") "hr") ∧
    (initGenerator "p1" (some "tachycardia") (1/2) 0).baselines.lookup "oxygen" =
      some ((98 + 1/2) * condFactor (some "tachycardia") "oxygen") := by
  have h1 := C10_generator_state "p1" (some "tachycardia") (1/2) 0
    (by norm_num) (by norm_num) "hr" (by simp [SIGNALS])
    ⟨"p1", none, [], [], 0, none, none⟩ (fun _ => 0) (fun _ => 0) (fun _ => 0)
  have h2 := C10_generator_state "p1" (some "tachycardia") (1/2) 0
    (by norm_num) (by norm_num) "oxygen" (by simp [SIGNALS])
    ⟨"p1", none, [], [], 0, none, none⟩ (fun _ => 0) (fun _ => 0) (fun _ => 0)
  refine ⟨?_, ?_⟩
  · have := h1.1
    simpa using this
  · have := h2.1
    simpa using this

end SmartCare
